import Mathlib

/-!
Verification development for the date-picker repository.

The repository's calendar widgets manipulate JavaScript `Date` values through
`date-fns`.  A JS `Date` is an instant; the widgets only ever build instants
that are normalized calendar component tuples, and `isBefore`/`isAfter`
compare the underlying timestamps, which for normalized tuples is exactly the
lexicographic order on (year, month, day, hour, minute, second, millisecond).
We embed such instants as the `DateTime` structure below (month is 0-based,
as in JS `getMonth`).  Week-level arithmetic of the preset helpers is embedded
separately over `Instant`, the epoch-day/ms-of-day split of a JS timestamp.
-/

/-- A calendar instant, mirroring the components of a JS `Date`
(`getFullYear`, `getMonth` (0-11), `getDate`, `getHours`, `getMinutes`,
`getSeconds`, `getMilliseconds`). -/
structure DateTime where
  year : Int
  month : Nat
  day : Nat
  hour : Nat
  minute : Nat
  sec : Nat
  ms : Nat
deriving DecidableEq, Repr

/-- `date-fns` `isBefore a b`: `a.getTime() < b.getTime()`, i.e. the
lexicographic order on the components of normalized dates. -/
def DateTime.before (a b : DateTime) : Prop :=
  a.year < b.year ∨ (a.year = b.year ∧
    (a.month < b.month ∨ (a.month = b.month ∧
      (a.day < b.day ∨ (a.day = b.day ∧
        (a.hour < b.hour ∨ (a.hour = b.hour ∧
          (a.minute < b.minute ∨ (a.minute = b.minute ∧
            (a.sec < b.sec ∨ (a.sec = b.sec ∧ a.ms < b.ms)))))))))))

instance (a b : DateTime) : Decidable (a.before b) := by
  unfold DateTime.before
  exact inferInstance

/-- `date-fns` `startOfDay`. -/
def startOfDay (d : DateTime) : DateTime :=
  { d with hour := 0, minute := 0, sec := 0, ms := 0 }

/-- `date-fns` `endOfDay`. -/
def endOfDay (d : DateTime) : DateTime :=
  { d with hour := 23, minute := 59, sec := 59, ms := 999 }

/-- Gregorian leap-year test. -/
def isLeapYear (y : Int) : Bool :=
  (y % 4 == 0 && y % 100 != 0) || y % 400 == 0

/-- Number of days of month `m` (0-based) of year `y`. -/
def daysInMonth (y : Int) (m : Nat) : Nat :=
  if m = 1 then (if isLeapYear y then 29 else 28)
  else if m = 3 ∨ m = 5 ∨ m = 8 ∨ m = 10 then 30
  else 31

/-- The JS `new Date(y, m, 1)` constructor at day 1 and midnight: the month
argument may be any integer and is normalized into the year. -/
def mkMonth (y m : Int) : DateTime :=
  let total := y * 12 + m
  ⟨total / 12, (total % 12).toNat, 1, 0, 0, 0, 0⟩

/-- `date-fns` `addMonths`: steps the (year, month) pair and clamps the day
to the last day of the target month. -/
def addMonths (d : DateTime) (n : Int) : DateTime :=
  let total := d.year * 12 + (d.month : Int) + n
  let y := total / 12
  let m := (total % 12).toNat
  ⟨y, m, min d.day (daysInMonth y m), d.hour, d.minute, d.sec, d.ms⟩

/-- `date-fns` `subMonths`. -/
def subMonths (d : DateTime) (n : Int) : DateTime :=
  addMonths d (-n)

/-- `date-fns` `addYears` (clamps Feb 29 like `addMonths` of 12 months). -/
def addYears (d : DateTime) (n : Int) : DateTime :=
  addMonths d (12 * n)

/-- `date-fns` `subYears`. -/
def subYears (d : DateTime) (n : Int) : DateTime :=
  addMonths d (-(12 * n))

/-- `date-fns` `startOfMonth`. -/
def startOfMonth (d : DateTime) : DateTime :=
  ⟨d.year, d.month, 1, 0, 0, 0, 0⟩

/-- `date-fns` `endOfMonth`. -/
def endOfMonth (d : DateTime) : DateTime :=
  ⟨d.year, d.month, daysInMonth d.year d.month, 23, 59, 59, 999⟩

/-- The first instant of the month a date is displayed in
(`new Date(d.getFullYear(), d.getMonth(), 1)`). -/
def monthStartOf (d : DateTime) : DateTime :=
  mkMonth d.year (d.month : Int)

/-- JS `Date.prototype.setMonth m` for the 0-11 month indices the grids pass:
keeps the day number and rolls any overflow into the following month (day
numbers reachable in the widgets are at most 31, so at most one roll). -/
def jsSetMonth (d : DateTime) (m : Nat) : DateTime :=
  if d.day ≤ daysInMonth d.year m then { d with month := m }
  else if m = 11 then { d with year := d.year + 1, month := 0, day := d.day - 31 }
  else { d with month := m + 1, day := d.day - daysInMonth d.year m }

/-- JS `Date.prototype.setFullYear y`: keeps month and day, rolling a Feb 29
that does not exist in the target year into March. -/
def jsSetFullYear (d : DateTime) (y : Int) : DateTime :=
  if d.day ≤ daysInMonth y d.month then { d with year := y }
  else { d with year := y, month := d.month + 1, day := d.day - daysInMonth y d.month }

/-- `minDate && isBefore(date, normalizedMinDate)`. -/
def belowMin (minD : Option DateTime) (d : DateTime) : Bool :=
  match minD with
  | some m => decide (d.before m)
  | none => false

/-- `maxDate && isAfter(date, normalizedMaxDate)`. -/
def aboveMax (maxD : Option DateTime) (d : DateTime) : Bool :=
  match maxD with
  | some m => decide (m.before d)
  | none => false

/-- `isDateInRange` of both overlays, over already-normalized bounds. -/
def isDateInRangeB (minD maxD : Option DateTime) (d : DateTime) : Bool :=
  if belowMin minD d then false
  else if aboveMax maxD d then false
  else true

/-- `isYearSelectable` of both overlays, over already-normalized bounds. -/
def isYearSelectableB (minD maxD : Option DateTime) (y : Int) : Bool :=
  match minD with
  | some m => if y < m.year then false else
      match maxD with
      | some M => decide (y ≤ M.year)
      | none => true
  | none =>
      match maxD with
      | some M => decide (y ≤ M.year)
      | none => true

/-- The 12-year window `{start: floor(year/12)*12, end: start+11}`. -/
def getYearRange (d : DateTime) : Int × Int :=
  let s := d.year / 12 * 12
  (s, s + 11)

/-- `padStart(2, '0')` of a decimal numeral. -/
def pad2 (n : Nat) : String :=
  if n < 10 then "0" ++ toString n else toString n

/-- The digits-to-number reading JS `Number` performs on the pieces of a
well-formed `"HH:mm"` string. -/
def digitsVal (cs : List Char) : Nat :=
  cs.foldl (fun acc c => acc * 10 + (c.toNat - 48)) 0

/-- Split a character list at `:` separators (the `split(':')` of the
source). -/
def splitColon : List Char → List (List Char)
  | [] => [[]]
  | c :: cs =>
      let rest := splitColon cs
      if c = ':' then [] :: rest
      else match rest with
        | [] => [[c]]
        | r :: rs => (c :: r) :: rs

/-- `timeString.split(':').map(Number)` destructured into hours and
minutes. -/
def parseClock (s : String) : Nat × Nat :=
  match splitColon s.toList with
  | h :: m :: _ => (digitsVal h, digitsVal m)
  | [h] => (digitsVal h, 0)
  | [] => (0, 0)

/-- Minute-of-day denoted by a `"HH:mm"` string: `hours * 60 + minutes` of
its parsed pieces. -/
def clockMinutes (s : String) : Nat :=
  (parseClock s).1 * 60 + (parseClock s).2

/-- One entry of `generateTimeOptions`. -/
structure TimeOption where
  value : String
  displayText : String
deriving DecidableEq, Repr

/-- The body of the `generateTimeOptions` loop at minute-of-day `i`. -/
def mkTimeOption (i : Nat) : TimeOption :=
  let hours := i / 60
  let minutes := i % 60
  let period := if hours ≥ 12 then "pm" else "am"
  let hours12 := if hours % 12 = 0 then 12 else hours % 12
  { value := pad2 hours ++ ":" ++ pad2 minutes
    displayText := toString hours12 ++ ":" ++ pad2 minutes ++ " " ++ period }

/-- The `for (let i = startMinutes; i <= endMinutes; i += timeInterval)` loop
of `generateTimeOptions`.  The fuel argument bounds the number of
iterations; `generateTimeOptions` passes `endMinutes + 1 - startMinutes`,
which covers every iteration the source loop performs whenever the interval
is positive (for interval 0 the source loop does not terminate). -/
def timeOptionsLoop (interval : Nat) : Nat → Nat → Nat → List TimeOption
  | 0, _, _ => []
  | fuel + 1, i, endM =>
      if i ≤ endM then mkTimeOption i :: timeOptionsLoop interval fuel (i + interval) endM
      else []

/-- `generateTimeOptions(minTime, maxTime, timeInterval)` of the single-date
overlay. -/
def generateTimeOptions (minTime maxTime : String) (timeInterval : Nat) : List TimeOption :=
  let startMinutes := clockMinutes minTime
  let endMinutes := clockMinutes maxTime
  timeOptionsLoop timeInterval (endMinutes + 1 - startMinutes) startMinutes endMinutes

/-- `format(d, 'HH:mm')`. -/
def formatHM (d : DateTime) : String :=
  pad2 d.hour ++ ":" ++ pad2 d.minute

/-- `combineDateAndTime`: `setMinutes(setHours(date, hours), minutes)` —
hour and minute are replaced, all other components (including seconds and
milliseconds) are kept. -/
def combineDateAndTime (d : DateTime) (timeString : String) : DateTime :=
  let p := parseClock timeString
  { d with hour := p.1, minute := p.2 }

/-- The `days`/`months`/`years` view enumeration. -/
inductive CalendarView where
  | days
  | months
  | years
deriving DecidableEq, Repr

/-- Configuration of the single-date overlay (the props that matter to the
state machine). -/
structure DCfg where
  showTimeSelect : Bool
  minDate : Option DateTime
  maxDate : Option DateTime
deriving DecidableEq, Repr

/-- `normalizedMinDate` of the single-date overlay. -/
def DCfg.normMin (c : DCfg) : Option DateTime := c.minDate.map startOfDay

/-- `normalizedMaxDate` of the single-date overlay. -/
def DCfg.normMax (c : DCfg) : Option DateTime := c.maxDate.map endOfDay

/-- Mutable state of the single-date overlay. -/
structure DState where
  currentDate : DateTime
  selectedDate : Option DateTime
  selectedTime : Option String
  view : CalendarView
deriving DecidableEq, Repr

/-- `handleDateSelect` of the single-date overlay.  The second component is
the `onChange` notification the call emits (`none` = no call). -/
def handleDateSelect (c : DCfg) (s : DState) (d : DateTime) : DState × Option DateTime :=
  if isDateInRangeB c.normMin c.normMax d then
    ({ s with selectedDate := some d, currentDate := d },
     if c.showTimeSelect then none else some d)
  else (s, none)

/-- `handleTimeSelect` of the single-date overlay. -/
def handleTimeSelect (c : DCfg) (s : DState) (t : String) : DState × Option DateTime :=
  let s' := { s with selectedTime := some t }
  match s.selectedDate with
  | some d => (s', some (combineDateAndTime d t))
  | none => (s', none)

/-- `handleSelectToday` of the single-date overlay, with the `new Date()`
moment passed explicitly. -/
def handleSelectToday (c : DCfg) (today : DateTime) (s : DState) : DState × Option DateTime :=
  if isDateInRangeB c.normMin c.normMax today then
    ({ s with selectedDate := some today, currentDate := today, view := .days },
     if c.showTimeSelect then none else some today)
  else (s, none)

/-- The value-sync effect of the single-date overlay (`useEffect` on
`value`): a valid value re-derives `selectedDate`, `currentDate` and
`selectedTime`; a `null` value clears the selection fields only. -/
def syncValue (v : Option DateTime) (s : DState) : DState :=
  match v with
  | some d => { s with selectedDate := some d, currentDate := d, selectedTime := some (formatHM d) }
  | none => { s with selectedDate := none, selectedTime := none }

/-- The two-phase range selection state. -/
inductive SelectionPhase where
  | selStart
  | selEnd
deriving DecidableEq, Repr

/-- A calendar side of the range overlay. -/
inductive Side where
  | left
  | right
deriving DecidableEq, Repr

/-- A navigation direction. -/
inductive NavDir where
  | prev
  | next
deriving DecidableEq, Repr

/-- Configuration of the range overlay. -/
structure RCfg where
  minDate : Option DateTime
  maxDate : Option DateTime
deriving DecidableEq, Repr

/-- `normalizedMinDate` of the range overlay. -/
def RCfg.normMin (c : RCfg) : Option DateTime := c.minDate.map startOfDay

/-- `normalizedMaxDate` of the range overlay. -/
def RCfg.normMax (c : RCfg) : Option DateTime := c.maxDate.map endOfDay

/-- Mutable state of the range overlay. -/
structure RState where
  leftCurrentDate : DateTime
  rightCurrentDate : DateTime
  selectedStartDate : Option DateTime
  selectedEndDate : Option DateTime
  hoverDate : Option DateTime
  selectionPhase : SelectionPhase
  leftView : CalendarView
  rightView : CalendarView
  leftYearRange : Int × Int
  rightYearRange : Int × Int
  activeSpecialView : Option Side
deriving DecidableEq, Repr

/-- The notification payload of the range overlay's `onChange`. -/
abbrev RangePair := Option DateTime × Option DateTime

/-- `canNavigate.prevMonth`. -/
def canPrevMonth (c : RCfg) (s : RState) : Bool :=
  match c.normMin with
  | none => true
  | some m => !decide ((endOfMonth (subMonths s.leftCurrentDate 1)).before m)

/-- `canNavigate.nextMonth`. -/
def canNextMonth (c : RCfg) (s : RState) : Bool :=
  match c.normMax with
  | none => true
  | some M => !decide (M.before (startOfMonth (addMonths s.rightCurrentDate 1)))

/-- `canNavigate.prevYear`. -/
def canPrevYear (c : RCfg) (s : RState) : Bool :=
  match c.normMin with
  | none => true
  | some m => !decide ((subYears s.leftCurrentDate 1).before m)

/-- `canNavigate.nextYear`. -/
def canNextYear (c : RCfg) (s : RState) : Bool :=
  match c.normMax with
  | none => true
  | some M => !decide (M.before (addYears s.rightCurrentDate 1))

/-- `canNavigate.prevYearRange` (both sides use `leftYearRange`, as in the
source). -/
def canPrevYearRange (c : RCfg) (s : RState) : Bool :=
  match c.normMin with
  | none => true
  | some m => decide (m.year ≤ s.leftYearRange.1 - 12)

/-- `canNavigate.nextYearRange` (both sides use `leftYearRange`, as in the
source). -/
def canNextYearRange (c : RCfg) (s : RState) : Bool :=
  match c.normMax with
  | none => true
  | some M => decide (M.year ≥ s.leftYearRange.2 + 12)

/-- The clamp-into-bounds pattern used by the month/year selection handlers:
snap to the min if below it, else to the max if above it. -/
def clampToBounds (minD maxD : Option DateTime) (d : DateTime) : DateTime :=
  if belowMin minD d then minD.getD d
  else if aboveMax maxD d then maxD.getD d
  else d

/-- `handleDateSelect` of the range overlay.  The second component is the
`onChange` notification the call emits. -/
def rangeDateSelect (c : RCfg) (s : RState) (d : DateTime) : RState × Option RangePair :=
  if isDateInRangeB c.normMin c.normMax d then
    match s.selectionPhase with
    | .selStart =>
        ({ s with selectedStartDate := some d, selectedEndDate := none,
                  selectionPhase := .selEnd },
         some (some d, none))
    | .selEnd =>
        match s.selectedStartDate with
        | some a =>
            if d.before a then
              ({ s with selectedStartDate := some d, selectionPhase := .selStart },
               some (some d, s.selectedEndDate))
            else
              ({ s with selectedEndDate := some d, selectionPhase := .selStart },
               some (s.selectedStartDate, some d))
        | none =>
            ({ s with selectedStartDate := some d, selectionPhase := .selEnd },
             some (some d, none))
  else (s, none)

/-- `toggleView` of the range overlay. -/
def toggleViewR (s : RState) (side : Side) : RState :=
  match side with
  | .left =>
      match s.leftView with
      | .days => { s with leftView := .months, activeSpecialView := some .left }
      | .months => { s with leftYearRange := getYearRange s.leftCurrentDate,
                            leftView := .years, activeSpecialView := some .left }
      | .years => { s with leftView := .days, activeSpecialView := none }
  | .right =>
      match s.rightView with
      | .days => { s with rightView := .months, activeSpecialView := some .right }
      | .months => { s with rightYearRange := getYearRange s.rightCurrentDate,
                            rightView := .years, activeSpecialView := some .right }
      | .years => { s with rightView := .days, activeSpecialView := none }

/-- `handleNavigation` of the range overlay, composed with the
right-calendar sync effect: every branch that sets `leftCurrentDate` is
followed by `rightCurrentDate := addMonths leftCurrentDate 1`, the effect
the source registers on `leftCurrentDate`. -/
def handleNavigationR (c : RCfg) (s : RState) (dir : NavDir) : RState :=
  match s.activeSpecialView with
  | some side =>
      let view := match side with | .left => s.leftView | .right => s.rightView
      match view with
      | .months =>
          match dir with
          | .prev =>
              if canPrevYear c s then
                match side with
                | .left =>
                    let l := subYears s.leftCurrentDate 1
                    { s with leftCurrentDate := l, rightCurrentDate := addMonths l 1 }
                | .right => { s with rightCurrentDate := subYears s.rightCurrentDate 1 }
              else s
          | .next =>
              if canNextYear c s then
                match side with
                | .left =>
                    let l := addYears s.leftCurrentDate 1
                    { s with leftCurrentDate := l, rightCurrentDate := addMonths l 1 }
                | .right => { s with rightCurrentDate := addYears s.rightCurrentDate 1 }
              else s
      | .years =>
          match dir with
          | .prev =>
              if canPrevYearRange c s then
                match side with
                | .left => { s with leftYearRange := (s.leftYearRange.1 - 12, s.leftYearRange.2 - 12) }
                | .right => { s with rightYearRange := (s.rightYearRange.1 - 12, s.rightYearRange.2 - 12) }
              else s
          | .next =>
              if canNextYearRange c s then
                match side with
                | .left => { s with leftYearRange := (s.leftYearRange.1 + 12, s.leftYearRange.2 + 12) }
                | .right => { s with rightYearRange := (s.rightYearRange.1 + 12, s.rightYearRange.2 + 12) }
              else s
      | .days => s
  | none =>
      match dir with
      | .prev =>
          if canPrevMonth c s then
            let l := subMonths s.leftCurrentDate 1
            { s with leftCurrentDate := l, rightCurrentDate := addMonths l 1 }
          else s
      | .next =>
          if canNextMonth c s then
            let l := addMonths s.leftCurrentDate 1
            { s with leftCurrentDate := l, rightCurrentDate := addMonths l 1 }
          else s

/-- The clamped date a right-side month selection requests before the
cross-side check. -/
def rightMonthRequested (c : RCfg) (s : RState) (monthIndex : Nat) : DateTime :=
  clampToBounds c.normMin c.normMax (jsSetMonth s.rightCurrentDate monthIndex)

/-- `handleMonthSelect` of the range overlay, composed with the
right-calendar sync effect (which overwrites the right date whenever the
left date was pushed back). -/
def handleMonthSelectR (c : RCfg) (s : RState) (side : Side) (monthIndex : Nat) : RState :=
  match side with
  | .left =>
      let newDate := clampToBounds c.normMin c.normMax (jsSetMonth s.leftCurrentDate monthIndex)
      { s with leftCurrentDate := newDate, rightCurrentDate := addMonths newDate 1,
               leftView := .days, activeSpecialView := none }
  | .right =>
      let newDate := rightMonthRequested c s monthIndex
      if (mkMonth newDate.year (newDate.month : Int)).before
          (mkMonth s.leftCurrentDate.year ((s.leftCurrentDate.month : Int) + 1)) then
        let l := mkMonth newDate.year ((newDate.month : Int) - 1)
        { s with leftCurrentDate := l, rightCurrentDate := addMonths l 1,
                 rightView := .days, activeSpecialView := none }
      else
        { s with rightCurrentDate := newDate, rightView := .days, activeSpecialView := none }

/-- The clamped date a right-side year selection requests before the
cross-side clamp. -/
def rightYearRequested (c : RCfg) (s : RState) (year : Int) : DateTime :=
  clampToBounds c.normMin c.normMax (jsSetFullYear s.rightCurrentDate year)

/-- `handleYearSelect` of the range overlay, composed with the
right-calendar sync effect. -/
def handleYearSelectR (c : RCfg) (s : RState) (side : Side) (year : Int) : RState :=
  if isYearSelectableB c.normMin c.normMax year then
    match side with
    | .left =>
        let newDate := clampToBounds c.normMin c.normMax (jsSetFullYear s.leftCurrentDate year)
        { s with leftCurrentDate := newDate, rightCurrentDate := addMonths newDate 1,
                 leftView := .days, activeSpecialView := none }
    | .right =>
        match s.selectedStartDate with
        | some a =>
            if year < a.year then s
            else
              let req := rightYearRequested c s year
              let newDate := if req.before (addMonths s.leftCurrentDate 1)
                             then addMonths s.leftCurrentDate 1 else req
              { s with rightCurrentDate := newDate, rightView := .days,
                       activeSpecialView := none }
        | none =>
            let req := rightYearRequested c s year
            let newDate := if req.before (addMonths s.leftCurrentDate 1)
                           then addMonths s.leftCurrentDate 1 else req
            { s with rightCurrentDate := newDate, rightView := .days,
                     activeSpecialView := none }
  else s

/-- One user-level operation on the range overlay. -/
inductive ROp where
  | nav (dir : NavDir)
  | toggle (side : Side)
  | pick (d : DateTime)
  | monthSel (side : Side) (monthIndex : Nat)
  | yearSel (side : Side) (year : Int)
deriving DecidableEq, Repr

/-- One step of the range overlay's state machine. -/
def rstep (c : RCfg) (s : RState) : ROp → RState
  | .nav dir => handleNavigationR c s dir
  | .toggle side => toggleViewR s side
  | .pick d => (rangeDateSelect c s d).1
  | .monthSel side m => handleMonthSelectR c s side m
  | .yearSel side y => handleYearSelectR c s side y

/-- Run a sequence of operations on the range overlay. -/
def runR (c : RCfg) (s : RState) : List ROp → RState
  | [] => s
  | op :: ops => runR c (rstep c s op) ops

/-- The initial state of the range overlay, seeded from the initial left
date and the externally supplied selection. -/
def initR (initLeft : DateTime) (startSel endSel : Option DateTime) : RState :=
  { leftCurrentDate := initLeft
    rightCurrentDate := addMonths initLeft 1
    selectedStartDate := startSel
    selectedEndDate := endSel
    hoverDate := none
    selectionPhase := if startSel.isSome then .selEnd else .selStart
    leftView := .days
    rightView := .days
    leftYearRange := getYearRange initLeft
    rightYearRange := getYearRange (addMonths initLeft 1)
    activeSpecialView := none }

/-- Operations that never touch the right calendar's own month/year
position: everything except right-side view toggles and right-side
month/year selections. -/
def ROp.rightSafe : ROp → Bool
  | .toggle .right => false
  | .monthSel .right _ => false
  | .yearSel .right _ => false
  | _ => true

/-- State of the range picker input shell, composed with an idealized
external consumer that stores the last pair it was notified of
(`extStart`/`extEnd` play the `startDate`/`endDate` props).  The display
string of the text field is visual only and is not modelled. -/
structure ShellState where
  isOpen : Bool
  localStart : Option DateTime
  localEnd : Option DateTime
  extStart : Option DateTime
  extEnd : Option DateTime
deriving DecidableEq, Repr

/-- `handleApply` of the range shell: notify the consumer with the buffered
pair and close. -/
def shellApply (s : ShellState) : ShellState × Option RangePair :=
  ({ s with isOpen := false, extStart := s.localStart, extEnd := s.localEnd },
   some (s.localStart, s.localEnd))

/-- `handleCancel` of the range shell: when only a start is buffered the
buffer reverts to the committed pair; the overlay closes; no notification. -/
def shellCancel (s : ShellState) : ShellState × Option RangePair :=
  let s' := if s.localStart.isSome && s.localEnd.isNone then
              { s with localStart := s.extStart, localEnd := s.extEnd }
            else s
  ({ s' with isOpen := false }, none)

/-- The outside-click dismissal of the range shell (same buffer rule as
`handleCancel`). -/
def shellOutsideClick (s : ShellState) : ShellState × Option RangePair :=
  shellCancel s

/-- `handleClear` of the range shell: buffer and consumer are both reset to
`(null, null)` and the consumer is notified immediately. -/
def shellClear (s : ShellState) : ShellState × Option RangePair :=
  ({ s with localStart := none, localEnd := none, extStart := none, extEnd := none },
   some (none, none))

/-- Opening the shell (`togglePicker` when closed), composed with the
`useEffect` on `isOpen` that re-seeds the buffer from the committed props. -/
def shellOpen (s : ShellState) : ShellState × Option RangePair :=
  ({ s with isOpen := true, localStart := s.extStart, localEnd := s.extEnd }, none)

/-- `handleDateChange` of the range shell: both the overlay's `onChange` and
the preset column's `onSelectRange` land here, and it only refreshes the
buffer. -/
def shellDateChange (r : RangePair) (s : ShellState) : ShellState × Option RangePair :=
  ({ s with localStart := r.1, localEnd := r.2 }, none)

/-- A JS timestamp split at the UTC day boundary:
`epochMillis = epochDay * 86400000 + msOfDay`.  Day-level `date-fns`
helpers (`startOfWeek`, `addDays`, `getDay`, ...) are embedded over this
split; the instant order is the lexicographic order on the pair. -/
structure Instant where
  epochDay : Int
  msOfDay : Nat
deriving DecidableEq, Repr

/-- JS `getDay`: day of the week, 0 = Sunday (epoch day 0, 1970-01-01, was a
Thursday, weekday 4). -/
def getDayI (t : Instant) : Int :=
  (t.epochDay + 4) % 7

/-- `date-fns` `startOfDay` on a timestamp. -/
def startOfDayI (t : Instant) : Instant :=
  ⟨t.epochDay, 0⟩

/-- `date-fns` `endOfDay` on a timestamp. -/
def endOfDayI (t : Instant) : Instant :=
  ⟨t.epochDay, 86399999⟩

/-- `date-fns` `addDays`. -/
def addDaysI (t : Instant) (n : Int) : Instant :=
  ⟨t.epochDay + n, t.msOfDay⟩

/-- `date-fns` `subDays`. -/
def subDaysI (t : Instant) (n : Int) : Instant :=
  ⟨t.epochDay - n, t.msOfDay⟩

/-- `date-fns` `startOfWeek(t, { weekStartsOn: 0 })`: go back `getDay t`
days, then to start of day. -/
def startOfWeekI (t : Instant) : Instant :=
  startOfDayI (subDaysI t (getDayI t))

/-- `date-fns` `endOfWeek(t, { weekStartsOn: 0 })`: go forward
`6 - getDay t` days, then to end of day. -/
def endOfWeekI (t : Instant) : Instant :=
  endOfDayI (addDaysI t (6 - getDayI t))

/-- The `'This Week'` preset's `getRange`, as a function of `new Date()`. -/
def thisWeekRange (t : Instant) : Instant × Instant :=
  (startOfWeekI t, endOfWeekI t)

/-- Modelled from the spec: the 12-hour display conversion the spec
describes for `generateTimeOptions` labels — hours 0 and 12 both display as
`12`, hours above 12 drop 12, the rest display as-is. -/
def specHour12 (h : Nat) : Nat :=
  if h = 0 ∨ h = 12 then 12 else if 12 < h then h - 12 else h

/-- Modelled from the spec: one time option as §4.2 describes it — a
zero-padded 24-hour `"HH:mm"` key and a 12-hour `"h:mm am/pm"` label. -/
def specTimeOption (i : Nat) : TimeOption :=
  let h := i / 60
  let m := i % 60
  { value := pad2 h ++ ":" ++ pad2 m
    displayText := toString (specHour12 h) ++ ":" ++ pad2 m ++ " " ++
      (if h < 12 then "am" else "pm") }

/-- Modelled from the spec: the ordered enumeration `minTime, minTime +
interval, ...` up to `maxTime` inclusive, empty when `minTime > maxTime`. -/
def specTimeOptions (startM endM interval : Nat) : List TimeOption :=
  if startM ≤ endM then
    (List.range ((endM - startM) / interval + 1)).map (fun k => specTimeOption (startM + interval * k))
  else []

/-! Helper lemmas. -/

theorem before_irrefl (a : DateTime) : ¬ a.before a := by
  unfold DateTime.before
  omega

theorem isDateInRangeB_true_iff (minD maxD : Option DateTime) (d : DateTime) :
    isDateInRangeB minD maxD d = true ↔
      ((∀ m, minD = some m → ¬ d.before m) ∧ (∀ M, maxD = some M → ¬ M.before d)) := by
  cases minD <;> cases maxD <;>
    simp [isDateInRangeB, belowMin, aboveMax] <;>
    split_ifs <;> simp_all

/-- Claim C6: `isDateInRange` accepts a date exactly when it is not before
the min bound floored to start-of-day and not after the max bound ceiled to
end-of-day (an absent bound is unconstrained); a date strictly outside a
bound is rejected, and whenever the normalized min does not exceed the
normalized max (in particular when only one bound is present) the
normalized bound instants themselves are in-range. -/
theorem isDateInRange_spec (minD maxD : Option DateTime) (d : DateTime) :
    (isDateInRangeB (minD.map startOfDay) (maxD.map endOfDay) d = true ↔
      ((∀ m, minD = some m → ¬ d.before (startOfDay m)) ∧
       (∀ M, maxD = some M → ¬ (endOfDay M).before d)))
  ∧ (∀ m, minD = some m → d.before (startOfDay m) →
      isDateInRangeB (minD.map startOfDay) (maxD.map endOfDay) d = false)
  ∧ (∀ M, maxD = some M → (endOfDay M).before d →
      isDateInRangeB (minD.map startOfDay) (maxD.map endOfDay) d = false)
  ∧ (∀ m M, minD = some m → maxD = some M → ¬ (endOfDay M).before (startOfDay m) →
      isDateInRangeB (minD.map startOfDay) (maxD.map endOfDay) (startOfDay m) = true ∧
      isDateInRangeB (minD.map startOfDay) (maxD.map endOfDay) (endOfDay M) = true)
  ∧ (∀ m, minD = some m → maxD = none →
      isDateInRangeB (minD.map startOfDay) (maxD.map endOfDay) (startOfDay m) = true)
  ∧ (∀ M, minD = none → maxD = some M →
      isDateInRangeB (minD.map startOfDay) (maxD.map endOfDay) (endOfDay M) = true) := by
  refine ⟨?_, ?_, ?_, ?_, ?_, ?_⟩
  · rw [isDateInRangeB_true_iff]
    constructor
    · rintro ⟨h1, h2⟩
      exact ⟨fun m hm => h1 (startOfDay m) (by rw [hm]; rfl),
             fun M hM => h2 (endOfDay M) (by rw [hM]; rfl)⟩
    · rintro ⟨h1, h2⟩
      constructor
      · rintro x hx
        cases minD with
        | none => simp at hx
        | some m =>
            simp [Option.map] at hx
            subst hx
            exact h1 m rfl
      · rintro x hx
        cases maxD with
        | none => simp at hx
        | some M =>
            simp [Option.map] at hx
            subst hx
            exact h2 M rfl
  · rintro m rfl hlt
    simp [isDateInRangeB, belowMin, hlt]
  · rintro M rfl hgt
    cases minD with
    | none => simp [isDateInRangeB, belowMin, aboveMax, hgt]
    | some m =>
        simp only [isDateInRangeB, belowMin, aboveMax, Option.map]
        split_ifs <;> simp_all
  · rintro m M rfl rfl hle
    constructor
    · simp [isDateInRangeB, belowMin, aboveMax, before_irrefl, hle]
    · simp [isDateInRangeB, belowMin, aboveMax, before_irrefl, hle]
  · rintro m rfl rfl
    simp [isDateInRangeB, belowMin, aboveMax, before_irrefl]
  · rintro M rfl rfl
    simp [isDateInRangeB, belowMin, aboveMax, before_irrefl]

/-- Claim C6, counterexample to the unconditional reading: with crossed
bounds (minDate 2024-06-01, maxDate 2024-01-01) the normalized min instant
is NOT in-range, so the normalized bounds are not "always" in-range. -/
theorem inRange_crossedBounds_counterexample :
    isDateInRangeB ((some (⟨2024, 5, 1, 0, 0, 0, 0⟩ : DateTime)).map startOfDay)
      ((some (⟨2024, 0, 1, 0, 0, 0, 0⟩ : DateTime)).map endOfDay)
      (startOfDay ⟨2024, 5, 1, 0, 0, 0, 0⟩) = false := by decide

/-- Claim C6, witness: with bounds 2024-01-01 .. 2024-12-31 both normalized
bound instants are in-range and a date before the min is rejected. -/
theorem isDateInRange_spec_witness :
    (isDateInRangeB ((some (⟨2024, 0, 1, 0, 0, 0, 0⟩ : DateTime)).map startOfDay)
      ((some (⟨2024, 11, 31, 0, 0, 0, 0⟩ : DateTime)).map endOfDay)
      (startOfDay ⟨2024, 0, 1, 0, 0, 0, 0⟩) = true)
  ∧ (isDateInRangeB ((some (⟨2024, 0, 1, 0, 0, 0, 0⟩ : DateTime)).map startOfDay)
      ((some (⟨2024, 11, 31, 0, 0, 0, 0⟩ : DateTime)).map endOfDay)
      (endOfDay ⟨2024, 11, 31, 0, 0, 0, 0⟩) = true)
  ∧ (isDateInRangeB ((some (⟨2024, 0, 1, 0, 0, 0, 0⟩ : DateTime)).map startOfDay)
      ((some (⟨2024, 11, 31, 0, 0, 0, 0⟩ : DateTime)).map endOfDay)
      (⟨2023, 6, 4, 12, 0, 0, 0⟩ : DateTime) = false) := by
  have h := isDateInRange_spec (some (⟨2024, 0, 1, 0, 0, 0, 0⟩ : DateTime))
    (some (⟨2024, 11, 31, 0, 0, 0, 0⟩ : DateTime)) (⟨2023, 6, 4, 12, 0, 0, 0⟩ : DateTime)
  have hends := h.2.2.2.1 _ _ rfl rfl (by decide)
  exact ⟨hends.1, hends.2, h.2.1 _ rfl (by decide)⟩

/-- Claim C1: in the range machine's pick operation, with phase `end` and an
anchor present, picking a date that precedes the anchor replaces the anchor
(the previously committed end is kept), resets the phase to `start`, and
notifies the consumer with the resulting pair. -/
theorem pick_end_replaceStart (c : RCfg) (s : RState) (d a : DateTime)
    (hp : s.selectionPhase = .selEnd) (ha : s.selectedStartDate = some a)
    (hb : d.before a) (hr : isDateInRangeB c.normMin c.normMax d = true) :
    rangeDateSelect c s d =
      ({ s with selectedStartDate := some d, selectionPhase := .selStart },
       some (some d, s.selectedEndDate)) := by
  simp [rangeDateSelect, hp, ha, hb, hr]

/-- Claim C1, witness: with anchor 2024-05-10 committed, no end, phase
`end`, picking 2024-05-03 yields the pair (start 2024-05-03, end null) and
phase `start` — not an error and not a swapped range. -/
theorem pick_end_replaceStart_witness :
    (rangeDateSelect ⟨none, none⟩
        (initR ⟨2024, 4, 1, 0, 0, 0, 0⟩ (some ⟨2024, 4, 10, 0, 0, 0, 0⟩) none)
        ⟨2024, 4, 3, 0, 0, 0, 0⟩).2 =
      some (some ⟨2024, 4, 3, 0, 0, 0, 0⟩, none)
  ∧ (rangeDateSelect ⟨none, none⟩
        (initR ⟨2024, 4, 1, 0, 0, 0, 0⟩ (some ⟨2024, 4, 10, 0, 0, 0, 0⟩) none)
        ⟨2024, 4, 3, 0, 0, 0, 0⟩).1.selectionPhase = .selStart
  ∧ (rangeDateSelect ⟨none, none⟩
        (initR ⟨2024, 4, 1, 0, 0, 0, 0⟩ (some ⟨2024, 4, 10, 0, 0, 0, 0⟩) none)
        ⟨2024, 4, 3, 0, 0, 0, 0⟩).1.selectedStartDate =
      some ⟨2024, 4, 3, 0, 0, 0, 0⟩ := by
  have h := pick_end_replaceStart ⟨none, none⟩
    (initR ⟨2024, 4, 1, 0, 0, 0, 0⟩ (some ⟨2024, 4, 10, 0, 0, 0, 0⟩) none)
    ⟨2024, 4, 3, 0, 0, 0, 0⟩ ⟨2024, 4, 10, 0, 0, 0, 0⟩ rfl rfl (by decide) (by decide)
  rw [h]
  exact ⟨rfl, rfl, rfl⟩

/-- Claim C8: `selectToday` is idempotent — a second call with the same
`today` yields the same state and the same committed value; an in-bounds
call sets selection and view (and commits when time selection is disabled),
an out-of-bounds call is a silent no-op. -/
theorem selectToday_idempotent (c : DCfg) (today : DateTime) (s : DState) :
    (handleSelectToday c today (handleSelectToday c today s).1 =
      handleSelectToday c today s)
  ∧ (isDateInRangeB c.normMin c.normMax today = true →
       (handleSelectToday c today s).1 =
         { s with selectedDate := some today, currentDate := today, view := .days } ∧
       (c.showTimeSelect = false → (handleSelectToday c today s).2 = some today))
  ∧ (isDateInRangeB c.normMin c.normMax today = false →
       handleSelectToday c today s = (s, none)) := by
  cases hR : isDateInRangeB c.normMin c.normMax today <;>
    simp [handleSelectToday, hR] <;>
    first
      | (intro hT; simp [hT])
      | skip

/-- Claim C8, witness: with bounds May 2024 and today 2024-05-15, two calls
commit the same value and leave the same state. -/
theorem selectToday_idempotent_witness :
    (handleSelectToday ⟨false, some ⟨2024, 4, 1, 0, 0, 0, 0⟩, some ⟨2024, 4, 31, 0, 0, 0, 0⟩⟩
        ⟨2024, 4, 15, 9, 30, 0, 0⟩
        (handleSelectToday ⟨false, some ⟨2024, 4, 1, 0, 0, 0, 0⟩, some ⟨2024, 4, 31, 0, 0, 0, 0⟩⟩
          ⟨2024, 4, 15, 9, 30, 0, 0⟩
          ⟨⟨2024, 4, 1, 0, 0, 0, 0⟩, none, none, .days⟩).1 =
      handleSelectToday ⟨false, some ⟨2024, 4, 1, 0, 0, 0, 0⟩, some ⟨2024, 4, 31, 0, 0, 0, 0⟩⟩
        ⟨2024, 4, 15, 9, 30, 0, 0⟩
        ⟨⟨2024, 4, 1, 0, 0, 0, 0⟩, none, none, .days⟩)
  ∧ (handleSelectToday ⟨false, some ⟨2024, 4, 1, 0, 0, 0, 0⟩, some ⟨2024, 4, 31, 0, 0, 0, 0⟩⟩
      ⟨2024, 4, 15, 9, 30, 0, 0⟩
      ⟨⟨2024, 4, 1, 0, 0, 0, 0⟩, none, none, .days⟩).2 = some ⟨2024, 4, 15, 9, 30, 0, 0⟩ := by
  have h := selectToday_idempotent
    ⟨false, some ⟨2024, 4, 1, 0, 0, 0, 0⟩, some ⟨2024, 4, 31, 0, 0, 0, 0⟩⟩
    ⟨2024, 4, 15, 9, 30, 0, 0⟩
    ⟨⟨2024, 4, 1, 0, 0, 0, 0⟩, none, none, .days⟩
  exact ⟨h.1, ((h.2.1 (by decide)).2 rfl)⟩

/-- Claim C10: the value-sync effect of the single-date overlay — a `null`
external value clears `selectedDate` and `selectedTime` but leaves
`currentDate` and the view untouched; a valid external value re-derives
`selectedDate`, `currentDate` and `selectedTime` from it. -/
theorem syncValue_spec (s : DState) (d : DateTime) :
    syncValue none s = { s with selectedDate := none, selectedTime := none }
  ∧ syncValue (some d) s =
      { s with selectedDate := some d, currentDate := d,
               selectedTime := some (formatHM d) } :=
  ⟨rfl, rfl⟩

/-- Claim C4, counterexample to the order-independent reading: with time
selection disabled, a time-pick of "14:30" followed by a date-pick of
2024-03-10 leaves both picks recorded, yet the value committed by the
date-pick is the bare date at midnight — hour 0, not 14. -/
theorem timeThenDate_counterexample :
    (handleDateSelect ⟨false, none, none⟩
      (handleTimeSelect ⟨false, none, none⟩
        ⟨⟨2024, 0, 1, 0, 0, 0, 0⟩, none, none, .days⟩ "14:30").1
      ⟨2024, 2, 10, 0, 0, 0, 0⟩).2 = some ⟨2024, 2, 10, 0, 0, 0, 0⟩
  ∧ (handleDateSelect ⟨false, none, none⟩
      (handleTimeSelect ⟨false, none, none⟩
        ⟨⟨2024, 0, 1, 0, 0, 0, 0⟩, none, none, .days⟩ "14:30").1
      ⟨2024, 2, 10, 0, 0, 0, 0⟩).1.selectedTime = some "14:30"
  ∧ (handleDateSelect ⟨false, none, none⟩
      (handleTimeSelect ⟨false, none, none⟩
        ⟨⟨2024, 0, 1, 0, 0, 0, 0⟩, none, none, .days⟩ "14:30").1
      ⟨2024, 2, 10, 0, 0, 0, 0⟩).1.selectedDate = some ⟨2024, 2, 10, 0, 0, 0, 0⟩
  ∧ (⟨2024, 2, 10, 0, 0, 0, 0⟩ : DateTime).hour ≠ 14 := by
  refine ⟨by decide, by decide, by decide, by decide⟩

/-- Claim C4 (amended): a date-pick of an in-bounds midnight instant `d`
followed by a time-pick of `"HH:mm"` commits `d`'s calendar date at hour HH
and minute mm with seconds and milliseconds zero; a time-pick with no date
selected never emits a committed value. -/
theorem combineCommit_spec (c : DCfg) (s : DState) (d : DateTime) (t : String)
    (hr : isDateInRangeB c.normMin c.normMax d = true)
    (hsec : d.sec = 0) (hms : d.ms = 0) :
    (handleTimeSelect c (handleDateSelect c s d).1 t).2 =
      some ⟨d.year, d.month, d.day, (parseClock t).1, (parseClock t).2, 0, 0⟩
  ∧ (∀ s' : DState, s'.selectedDate = none → (handleTimeSelect c s' t).2 = none) := by
  constructor
  · obtain ⟨y, mo, da, h, mi, se, msx⟩ := d
    simp only at hsec hms
    subst hsec hms
    simp [handleDateSelect, hr, handleTimeSelect, combineDateAndTime]
  · intro s' h
    simp [handleTimeSelect, h]

/-- Claim C4, witness: picking 2024-03-10 then "14:30" commits
2024-03-10 14:30:00.000. -/
theorem combineCommit_spec_witness :
    (handleTimeSelect ⟨true, none, none⟩
      (handleDateSelect ⟨true, none, none⟩
        ⟨⟨2024, 0, 1, 0, 0, 0, 0⟩, none, none, .days⟩ ⟨2024, 2, 10, 0, 0, 0, 0⟩).1
      "14:30").2 = some ⟨2024, 2, 10, 14, 30, 0, 0⟩ := by
  have h := combineCommit_spec ⟨true, none, none⟩
    ⟨⟨2024, 0, 1, 0, 0, 0, 0⟩, none, none, .days⟩
    ⟨2024, 2, 10, 0, 0, 0, 0⟩ "14:30" (by decide) rfl rfl
  exact h.1

/-- Claim C7, counterexample: Cancel with a full pending pair buffered
(start 2024-05-03, end 2024-05-10) and nothing externally committed leaves
the buffer as it was — it is NOT reverted to the committed (null, null)
pair (that only happens when just a start is buffered, or lazily on the
next open). -/
theorem cancel_noRevert_counterexample :
    (shellCancel ⟨true, some ⟨2024, 4, 3, 0, 0, 0, 0⟩, some ⟨2024, 4, 10, 0, 0, 0, 0⟩,
        none, none⟩).1.localStart = some ⟨2024, 4, 3, 0, 0, 0, 0⟩
  ∧ (shellCancel ⟨true, some ⟨2024, 4, 3, 0, 0, 0, 0⟩, some ⟨2024, 4, 10, 0, 0, 0, 0⟩,
        none, none⟩).1.localEnd = some ⟨2024, 4, 10, 0, 0, 0, 0⟩
  ∧ (shellCancel ⟨true, some ⟨2024, 4, 3, 0, 0, 0, 0⟩, some ⟨2024, 4, 10, 0, 0, 0, 0⟩,
        none, none⟩).1.extStart = none
  ∧ (shellCancel ⟨true, some ⟨2024, 4, 3, 0, 0, 0, 0⟩, some ⟨2024, 4, 10, 0, 0, 0, 0⟩,
        none, none⟩).2 = none := by
  refine ⟨by decide, by decide, by decide, by decide⟩

/-- Claim C7 (amended): Apply notifies the consumer with the buffered pair
and closes; Cancel closes without notifying, reverting the buffer
immediately only when a start is buffered without an end, and in any case
the buffer is re-seeded from the committed pair on the next open; clear
resets the buffered and external pair to null and notifies (null, null)
immediately. -/
theorem shell_apply_cancel_clear_spec (s : ShellState) :
    (shellApply s).2 = some (s.localStart, s.localEnd)
  ∧ (shellApply s).1.extStart = s.localStart
  ∧ (shellApply s).1.extEnd = s.localEnd
  ∧ (shellApply s).1.isOpen = false
  ∧ (shellCancel s).2 = none
  ∧ (shellCancel s).1.extStart = s.extStart
  ∧ (shellCancel s).1.extEnd = s.extEnd
  ∧ (shellCancel s).1.isOpen = false
  ∧ (s.localStart.isSome = true → s.localEnd = none →
       (shellCancel s).1.localStart = s.extStart ∧
       (shellCancel s).1.localEnd = s.extEnd)
  ∧ (shellOpen (shellCancel s).1).1.localStart = s.extStart
  ∧ (shellOpen (shellCancel s).1).1.localEnd = s.extEnd
  ∧ (shellClear s).1.localStart = none
  ∧ (shellClear s).1.localEnd = none
  ∧ (shellClear s).1.extStart = none
  ∧ (shellClear s).1.extEnd = none
  ∧ (shellClear s).2 = some (none, none) := by
  cases hs : s.localStart with
  | none => simp [shellApply, shellCancel, shellOpen, shellClear, hs]
  | some a =>
      cases he : s.localEnd <;>
        simp [shellApply, shellCancel, shellOpen, shellClear, hs, he]

/-- Claim C7, witness: with only a start buffered and a committed pair
present, Cancel reverts the buffer to the committed pair without
notifying. -/
theorem shell_apply_cancel_clear_spec_witness :
    (shellCancel ⟨true, some ⟨2024, 4, 3, 0, 0, 0, 0⟩, none,
        some ⟨2024, 3, 1, 0, 0, 0, 0⟩, some ⟨2024, 3, 7, 0, 0, 0, 0⟩⟩).1.localStart =
      some ⟨2024, 3, 1, 0, 0, 0, 0⟩
  ∧ (shellCancel ⟨true, some ⟨2024, 4, 3, 0, 0, 0, 0⟩, none,
        some ⟨2024, 3, 1, 0, 0, 0, 0⟩, some ⟨2024, 3, 7, 0, 0, 0, 0⟩⟩).1.localEnd =
      some ⟨2024, 3, 7, 0, 0, 0, 0⟩
  ∧ (shellCancel ⟨true, some ⟨2024, 4, 3, 0, 0, 0, 0⟩, none,
        some ⟨2024, 3, 1, 0, 0, 0, 0⟩, some ⟨2024, 3, 7, 0, 0, 0, 0⟩⟩).2 = none := by
  have h := shell_apply_cancel_clear_spec ⟨true, some ⟨2024, 4, 3, 0, 0, 0, 0⟩, none,
    some ⟨2024, 3, 1, 0, 0, 0, 0⟩, some ⟨2024, 3, 7, 0, 0, 0, 0⟩⟩
  have hrev := h.2.2.2.2.2.2.2.2.1 rfl rfl
  exact ⟨hrev.1, hrev.2, h.2.2.2.2.1⟩

/-- Claim C9: the 'This Week' preset yields the Sunday of the current week
(the same day when today is a Sunday) at start-of-day and the following
Saturday at end-of-day, and delivering any preset range to the shell only
fills the pending buffer — the external consumer is neither notified nor
changed. -/
theorem thisWeek_preset_spec (t : Instant) (sh : ShellState) (r : RangePair) :
    getDayI (thisWeekRange t).1 = 0
  ∧ (thisWeekRange t).1.msOfDay = 0
  ∧ (thisWeekRange t).1.epochDay ≤ t.epochDay
  ∧ t.epochDay < (thisWeekRange t).1.epochDay + 7
  ∧ (getDayI t = 0 → (thisWeekRange t).1.epochDay = t.epochDay)
  ∧ (thisWeekRange t).2.epochDay = (thisWeekRange t).1.epochDay + 6
  ∧ getDayI (thisWeekRange t).2 = 6
  ∧ (thisWeekRange t).2.msOfDay = 86399999
  ∧ (shellDateChange r sh).1.extStart = sh.extStart
  ∧ (shellDateChange r sh).1.extEnd = sh.extEnd
  ∧ (shellDateChange r sh).2 = none
  ∧ (shellDateChange r sh).1.localStart = r.1
  ∧ (shellDateChange r sh).1.localEnd = r.2 := by
  refine ⟨?_, rfl, ?_, ?_, ?_, ?_, ?_, rfl, rfl, rfl, rfl, rfl, rfl⟩ <;>
    simp only [thisWeekRange, startOfWeekI, endOfWeekI, startOfDayI, endOfDayI,
      subDaysI, addDaysI, getDayI] <;>
    omega

/-- Claim C9, witness: on Wednesday 1970-01-07 (epoch day 6) the preset
spans Sunday (epoch day 3) through Saturday (epoch day 9); on a Sunday the
start is the same day. -/
theorem thisWeek_preset_spec_witness :
    getDayI (thisWeekRange ⟨6, 1234⟩).1 = 0
  ∧ (thisWeekRange ⟨6, 1234⟩).2.epochDay = (thisWeekRange ⟨6, 1234⟩).1.epochDay + 6
  ∧ (thisWeekRange ⟨3, 0⟩).1.epochDay = 3 := by
  have h1 := thisWeek_preset_spec ⟨6, 1234⟩ ⟨false, none, none, none, none⟩ (none, none)
  have h2 := thisWeek_preset_spec ⟨3, 0⟩ ⟨false, none, none, none, none⟩ (none, none)
  exact ⟨h1.1, h1.2.2.2.2.2.1, h2.2.2.2.2.1 (by decide)⟩

theorem timeOptionsLoop_eq (interval : Nat) (hpos : 0 < interval) :
    ∀ (fuel i endM : Nat), endM + 1 - i ≤ fuel →
      timeOptionsLoop interval fuel i endM =
        if i ≤ endM then
          (List.range ((endM - i) / interval + 1)).map
            (fun k => mkTimeOption (i + interval * k))
        else [] := by
  intro fuel
  induction fuel with
  | zero =>
      intro i endM hf
      have hi : ¬ i ≤ endM := by omega
      simp [timeOptionsLoop, hi]
  | succ n ih =>
      intro i endM hf
      by_cases hi : i ≤ endM
      · rw [if_pos hi]
        simp only [timeOptionsLoop, if_pos hi]
        rw [ih (i + interval) endM (by omega)]
        by_cases hi2 : i + interval ≤ endM
        · rw [if_pos hi2]
          have hdiv : (endM - i) / interval = (endM - i - interval) / interval + 1 := by
            rw [Nat.div_eq_sub_div hpos (by omega)]
          have harg : endM - (i + interval) = endM - i - interval := by omega
          conv_rhs => rw [hdiv, List.range_succ_eq_map]
          rw [harg]
          simp only [List.map_cons, List.map_map, Nat.mul_zero, Nat.add_zero]
          congr 1
          apply List.map_congr_left
          intro x _
          simp only [Function.comp]
          congr 1
          rw [Nat.mul_succ]
          omega
        · rw [if_neg hi2]
          have hz : (endM - i) / interval = 0 := Nat.div_eq_of_lt (by omega)
          simp [hz, List.range_succ]
      · simp [timeOptionsLoop, hi]

theorem mkTimeOption_eq_spec (i : Nat) (h : i < 1440) :
    mkTimeOption i = specTimeOption i := by
  have hh : i / 60 < 24 := by omega
  have h12 : (if i / 60 % 12 = 0 then 12 else i / 60 % 12) = specHour12 (i / 60) := by
    unfold specHour12
    split_ifs <;> omega
  have hper : (if i / 60 ≥ 12 then "pm" else "am") = (if i / 60 < 12 then "am" else "pm") := by
    split_ifs <;> first | rfl | omega
  simp only [mkTimeOption, specTimeOption]
  rw [h12, hper]

/-- Claim C3: for every pair of time-of-day strings and every positive
interval, `generateTimeOptions` returns exactly the ordered enumeration
`minTime, minTime + interval, ...` up to `maxTime` inclusive (empty, not an
error, when `minTime > maxTime`), each option carrying the zero-padded
24-hour `"HH:mm"` key and the 12-hour `"h:mm am/pm"` label in which hours 0
and 12 both display as 12 (`specTimeOption`/`specTimeOptions` transcribe
the spec's wording). -/
theorem generateTimeOptions_spec (minT maxT : String) (interval : Nat)
    (hpos : 0 < interval) (hend : clockMinutes maxT < 1440) :
    generateTimeOptions minT maxT interval =
      specTimeOptions (clockMinutes minT) (clockMinutes maxT) interval := by
  simp only [generateTimeOptions, specTimeOptions]
  rw [timeOptionsLoop_eq interval hpos _ _ _ (by omega)]
  by_cases hle : clockMinutes minT ≤ clockMinutes maxT
  · rw [if_pos hle, if_pos hle]
    apply List.map_congr_left
    intro k hk
    simp only [List.mem_range] at hk
    apply mkTimeOption_eq_spec
    have hk' : k ≤ (clockMinutes maxT - clockMinutes minT) / interval := by omega
    have hmul : interval * k ≤ clockMinutes maxT - clockMinutes minT := by
      calc interval * k ≤ interval * ((clockMinutes maxT - clockMinutes minT) / interval) :=
            Nat.mul_le_mul_left _ hk'
        _ ≤ clockMinutes maxT - clockMinutes minT := Nat.mul_div_le _ _
    omega
  · rw [if_neg hle, if_neg hle]

/-- Claim C3, witness: `generateTimeOptions("09:00", "10:00", 30)` yields
exactly the three options 09:00/9:00 am, 09:30/9:30 am, 10:00/10:00 am. -/
theorem generateTimeOptions_spec_witness :
    generateTimeOptions "09:00" "10:00" 30 =
      [⟨"09:00", "9:00 am"⟩, ⟨"09:30", "9:30 am"⟩, ⟨"10:00", "10:00 am"⟩]
  ∧ generateTimeOptions "10:00" "09:00" 30 = [] := by
  have h1 := generateTimeOptions_spec "09:00" "10:00" 30 (by decide) (by decide)
  have h2 := generateTimeOptions_spec "10:00" "09:00" 30 (by decide) (by decide)
  rw [h1, h2]
  refine ⟨by decide, by decide⟩

theorem pos_mkMonth (y m : Int) :
    (mkMonth y m).year * 12 + ((mkMonth y m).month : Int) = y * 12 + m := by
  simp only [mkMonth]
  omega

theorem pos_addMonths (d : DateTime) (n : Int) :
    (addMonths d n).year * 12 + ((addMonths d n).month : Int) =
      d.year * 12 + (d.month : Int) + n := by
  simp only [addMonths]
  omega

theorem before_mkMonth_iff (y1 m1 y2 m2 : Int) :
    (mkMonth y1 m1).before (mkMonth y2 m2) ↔ y1 * 12 + m1 < y2 * 12 + m2 := by
  simp only [mkMonth, DateTime.before]
  omega

/-- Claim C5, counterexample to the push-back mechanism for year selection:
from left = May 2024, right = June 2024, selecting year 2023 on the right
requests June 2023 — a violating request — yet the left calendar is NOT
pushed back to May 2023; instead the right calendar is clamped up to one
month after the left. -/
theorem rightYearSelect_counterexample :
    (rightYearRequested ⟨none, none⟩ (initR ⟨2024, 4, 1, 0, 0, 0, 0⟩ none none) 2023).before
      (addMonths (initR ⟨2024, 4, 1, 0, 0, 0, 0⟩ none none).leftCurrentDate 1)
  ∧ (handleYearSelectR ⟨none, none⟩ (initR ⟨2024, 4, 1, 0, 0, 0, 0⟩ none none)
      .right 2023).leftCurrentDate = (initR ⟨2024, 4, 1, 0, 0, 0, 0⟩ none none).leftCurrentDate
  ∧ (handleYearSelectR ⟨none, none⟩ (initR ⟨2024, 4, 1, 0, 0, 0, 0⟩ none none)
      .right 2023).leftCurrentDate ≠ mkMonth 2023 4
  ∧ (handleYearSelectR ⟨none, none⟩ (initR ⟨2024, 4, 1, 0, 0, 0, 0⟩ none none)
      .right 2023).rightCurrentDate =
      addMonths (initR ⟨2024, 4, 1, 0, 0, 0, 0⟩ none none).leftCurrentDate 1 := by
  refine ⟨by decide, by decide, by decide, by decide⟩

/-- Claim C5 (amended): a right-side month selection always leaves the
right calendar's displayed month strictly after the left's, pushing the
left calendar back in lockstep (left = requested − 1 month, right re-synced
to left + 1) whenever the requested month would violate this; a right-side
year selection never moves the left calendar, and either does nothing or
leaves the right calendar no earlier than one month after the left (a
violating request is clamped up to left + 1 month instead of pushing the
left back). -/
theorem rightSelect_spec (c : RCfg) (s : RState) (monthIndex : Nat) (year : Int) :
    ((handleMonthSelectR c s .right monthIndex).leftCurrentDate.year * 12 +
        (((handleMonthSelectR c s .right monthIndex).leftCurrentDate.month : Int)) <
      (handleMonthSelectR c s .right monthIndex).rightCurrentDate.year * 12 +
        (((handleMonthSelectR c s .right monthIndex).rightCurrentDate.month : Int)))
  ∧ ((mkMonth (rightMonthRequested c s monthIndex).year
        ((rightMonthRequested c s monthIndex).month : Int)).before
        (mkMonth s.leftCurrentDate.year ((s.leftCurrentDate.month : Int) + 1)) →
      (handleMonthSelectR c s .right monthIndex).leftCurrentDate =
        mkMonth (rightMonthRequested c s monthIndex).year
          (((rightMonthRequested c s monthIndex).month : Int) - 1) ∧
      (handleMonthSelectR c s .right monthIndex).rightCurrentDate =
        addMonths (handleMonthSelectR c s .right monthIndex).leftCurrentDate 1)
  ∧ ((handleYearSelectR c s .right year).leftCurrentDate = s.leftCurrentDate)
  ∧ (handleYearSelectR c s .right year = s ∨
      ¬ (handleYearSelectR c s .right year).rightCurrentDate.before
          (addMonths s.leftCurrentDate 1)) := by
  refine ⟨?_, ?_, ?_, ?_⟩
  · simp only [handleMonthSelectR]
    by_cases hb : (mkMonth (rightMonthRequested c s monthIndex).year
        ((rightMonthRequested c s monthIndex).month : Int)).before
        (mkMonth s.leftCurrentDate.year ((s.leftCurrentDate.month : Int) + 1))
    · rw [if_pos hb]
      dsimp only
      rw [pos_addMonths, pos_mkMonth]
      omega
    · rw [if_neg hb]
      rw [before_mkMonth_iff] at hb
      dsimp only
      omega
  · intro hb
    simp only [handleMonthSelectR]
    rw [if_pos hb]
    exact ⟨rfl, rfl⟩
  · cases hy : isYearSelectableB c.normMin c.normMax year <;>
      cases hss : s.selectedStartDate <;>
        simp [handleYearSelectR, hy, hss] <;>
        split_ifs <;> rfl
  · cases hy : isYearSelectableB c.normMin c.normMax year <;>
      cases hss : s.selectedStartDate <;>
        simp [handleYearSelectR, hy, hss]
    · by_cases hreq : (rightYearRequested c s year).before (addMonths s.leftCurrentDate 1)
      · simp [hreq, before_irrefl]
      · simp [hreq]
    · rename_i a
      by_cases hlt : year < a.year
      · simp [hlt]
      · simp [hlt]
        by_cases hreq : (rightYearRequested c s year).before (addMonths s.leftCurrentDate 1)
        · simp [hreq, before_irrefl]
        · simp [hreq]

/-- Claim C5, witness: from left = May 2024, selecting March (index 2) on
the right pushes the left back to February 2024 and re-syncs the right to
March 2024; selecting year 2030 on the right leaves the left unchanged. -/
theorem rightSelect_spec_witness :
    (handleMonthSelectR ⟨none, none⟩ (initR ⟨2024, 4, 1, 0, 0, 0, 0⟩ none none)
        .right 2).leftCurrentDate = mkMonth 2024 1
  ∧ (handleMonthSelectR ⟨none, none⟩ (initR ⟨2024, 4, 1, 0, 0, 0, 0⟩ none none)
        .right 2).rightCurrentDate =
      addMonths (handleMonthSelectR ⟨none, none⟩ (initR ⟨2024, 4, 1, 0, 0, 0, 0⟩ none none)
        .right 2).leftCurrentDate 1
  ∧ (handleYearSelectR ⟨none, none⟩ (initR ⟨2024, 4, 1, 0, 0, 0, 0⟩ none none)
        .right 2030).leftCurrentDate =
      (initR ⟨2024, 4, 1, 0, 0, 0, 0⟩ none none).leftCurrentDate := by
  have h := rightSelect_spec ⟨none, none⟩ (initR ⟨2024, 4, 1, 0, 0, 0, 0⟩ none none) 2 2030
  have hpush := h.2.1 (by decide)
  exact ⟨hpush.1, hpush.2, h.2.2.1⟩

/-- Claim C2, counterexample: toggle the right calendar into its months
view, navigate one year back, then toggle through years view back to days.
Both sides end in day view with no special view active, yet the right
calendar sits at June 2023 — not one month after the left (May 2024), and
in fact strictly behind it. -/
theorem rightSync_counterexample :
    (runR ⟨none, none⟩ (initR ⟨2024, 4, 15, 0, 0, 0, 0⟩ none none)
      [ROp.toggle .right, ROp.nav .prev, ROp.toggle .right, ROp.toggle .right]).leftView = .days
  ∧ (runR ⟨none, none⟩ (initR ⟨2024, 4, 15, 0, 0, 0, 0⟩ none none)
      [ROp.toggle .right, ROp.nav .prev, ROp.toggle .right, ROp.toggle .right]).rightView = .days
  ∧ (runR ⟨none, none⟩ (initR ⟨2024, 4, 15, 0, 0, 0, 0⟩ none none)
      [ROp.toggle .right, ROp.nav .prev, ROp.toggle .right, ROp.toggle .right]).activeSpecialView = none
  ∧ (runR ⟨none, none⟩ (initR ⟨2024, 4, 15, 0, 0, 0, 0⟩ none none)
      [ROp.toggle .right, ROp.nav .prev, ROp.toggle .right, ROp.toggle .right]).rightCurrentDate ≠
      addMonths (runR ⟨none, none⟩ (initR ⟨2024, 4, 15, 0, 0, 0, 0⟩ none none)
        [ROp.toggle .right, ROp.nav .prev, ROp.toggle .right, ROp.toggle .right]).leftCurrentDate 1
  ∧ (runR ⟨none, none⟩ (initR ⟨2024, 4, 15, 0, 0, 0, 0⟩ none none)
      [ROp.toggle .right, ROp.nav .prev, ROp.toggle .right, ROp.toggle .right]).rightCurrentDate.before
      (runR ⟨none, none⟩ (initR ⟨2024, 4, 15, 0, 0, 0, 0⟩ none none)
        [ROp.toggle .right, ROp.nav .prev, ROp.toggle .right, ROp.toggle .right]).leftCurrentDate := by
  refine ⟨by decide, by decide, by decide, by decide, by decide⟩

theorem rightSafe_step (c : RCfg) (s : RState) (op : ROp)
    (hop : op.rightSafe = true)
    (h1 : s.rightCurrentDate = addMonths s.leftCurrentDate 1)
    (h2 : s.activeSpecialView ≠ some .right) :
    (rstep c s op).rightCurrentDate = addMonths (rstep c s op).leftCurrentDate 1 ∧
    (rstep c s op).activeSpecialView ≠ some .right := by
  cases op with
  | nav dir =>
      cases hsv : s.activeSpecialView with
      | none =>
          cases dir <;> simp only [rstep, handleNavigationR, hsv] <;>
            split_ifs <;> simp_all
      | some side =>
          cases side with
          | right => exact absurd hsv h2
          | left =>
              cases hlv : s.leftView <;> cases dir <;>
                simp only [rstep, handleNavigationR, hsv, hlv] <;>
                first
                  | (split_ifs <;> simp_all)
                  | simp_all
  | toggle side =>
      cases side with
      | right => simp [ROp.rightSafe] at hop
      | left =>
          cases hlv : s.leftView <;> simp_all [rstep, toggleViewR]
  | pick d =>
      cases hr : isDateInRangeB c.normMin c.normMax d <;>
        cases hp : s.selectionPhase <;>
          cases hss : s.selectedStartDate <;>
            simp only [rstep, rangeDateSelect, hr, hp, hss] <;>
            split_ifs <;> simp_all
  | monthSel side m =>
      cases side with
      | right => simp [ROp.rightSafe] at hop
      | left => simp_all [rstep, handleMonthSelectR]
  | yearSel side y =>
      cases side with
      | right => simp [ROp.rightSafe] at hop
      | left =>
          cases hy : isYearSelectableB c.normMin c.normMax y <;>
            simp_all [rstep, handleYearSelectR]

theorem runR_inv (c : RCfg) : ∀ (ops : List ROp) (s : RState),
    (∀ op ∈ ops, op.rightSafe = true) →
    s.rightCurrentDate = addMonths s.leftCurrentDate 1 →
    s.activeSpecialView ≠ some .right →
    (runR c s ops).rightCurrentDate = addMonths (runR c s ops).leftCurrentDate 1 ∧
    (runR c s ops).activeSpecialView ≠ some .right := by
  intro ops
  induction ops with
  | nil =>
      intro s _ h1 h2
      exact ⟨h1, h2⟩
  | cons op rest ih =>
      intro s hops h1 h2
      have hstep := rightSafe_step c s op (hops op (by simp)) h1 h2
      exact ih (rstep c s op) (fun o ho => hops o (by simp [ho])) hstep.1 hstep.2

/-- Claim C2 (amended): for every sequence of range-machine operations that
contains no right-side view toggle and no right-side month/year selection
(month navigation, left-side selections and toggles, left special-view
navigation, and picks are all allowed), `rightCurrentDate` equals
`leftCurrentDate` plus exactly one calendar month after every operation —
in particular whenever neither side is in a non-day view.  Right-side
special-view operations break the invariant (see the counterexample). -/
theorem rightSync_invariant (c : RCfg) (initLeft : DateTime)
    (startSel endSel : Option DateTime) (ops : List ROp)
    (hops : ∀ op ∈ ops, op.rightSafe = true) :
    (runR c (initR initLeft startSel endSel) ops).rightCurrentDate =
      addMonths (runR c (initR initLeft startSel endSel) ops).leftCurrentDate 1 :=
  (runR_inv c ops (initR initLeft startSel endSel) hops rfl (by simp [initR])).1

/-- Claim C2, witness: a mixed sequence of month navigation, left-side
toggles, left special-view navigation, a pick, and left-side month/year
selections keeps the right calendar exactly one month ahead. -/
theorem rightSync_invariant_witness :
    (runR ⟨none, none⟩ (initR ⟨2024, 4, 15, 0, 0, 0, 0⟩ none none)
      [ROp.nav .next, ROp.toggle .left, ROp.nav .next, ROp.toggle .left, ROp.toggle .left,
       ROp.pick ⟨2024, 5, 10, 0, 0, 0, 0⟩, ROp.monthSel .left 0,
       ROp.yearSel .left 2025]).rightCurrentDate =
      addMonths (runR ⟨none, none⟩ (initR ⟨2024, 4, 15, 0, 0, 0, 0⟩ none none)
        [ROp.nav .next, ROp.toggle .left, ROp.nav .next, ROp.toggle .left, ROp.toggle .left,
         ROp.pick ⟨2024, 5, 10, 0, 0, 0, 0⟩, ROp.monthSel .left 0,
         ROp.yearSel .left 2025]).leftCurrentDate 1 :=
  rightSync_invariant ⟨none, none⟩ ⟨2024, 4, 15, 0, 0, 0, 0⟩ none none
    [ROp.nav .next, ROp.toggle .left, ROp.nav .next, ROp.toggle .left, ROp.toggle .left,
     ROp.pick ⟨2024, 5, 10, 0, 0, 0, 0⟩, ROp.monthSel .left 0,
     ROp.yearSel .left 2025] (by decide)
